import Mathlib

/-!
Shallow embedding of the RVLT push-to-talk translation pipeline
(`app/resample.py`, `app/audio_devices.py`, `app/ptt.py`, `app/pipeline.py`,
`app/voicemeeter_ctrl.py`) together with theorems settling the behavioural
claims about it.

Machine integers are modelled as `Int` with explicit wraparound where the
source narrows a value (numpy `astype`); the float samples flowing through
the resampler are modelled as `ℚ`; the external `soxr` filter is an
arbitrary function parameter, since only the code around it belongs to the
repository.
-/

namespace RVLT

/-! ### Integer casts (numpy `astype` semantics)

`astype(np.int16)` on an integer value wraps modulo 2^16 into
[-32768, 32767]; `astype(np.int32)` wraps modulo 2^32.  On a float value
numpy first truncates toward zero, then wraps.  -/

/-- Narrowing cast to int16: wrap modulo 2^16 into [-32768, 32767]. -/
def wrap16 (n : Int) : Int := (n + 32768) % 65536 - 32768

/-- Narrowing cast to int32: wrap modulo 2^32 into [-2^31, 2^31 - 1]. -/
def wrap32 (n : Int) : Int := (n + 2147483648) % 4294967296 - 2147483648

/-- Truncation toward zero of a rational, as the float→int step of
numpy `astype` does before the wrap. -/
def ratTrunc (q : ℚ) : Int := if 0 ≤ q then ⌊q⌋ else ⌈q⌉

/-! ### app/resample.py -/

/-- The int16 output conversion of the resampling helpers in
`app/resample.py`: `(resampled * 32767.0).astype(np.int16)`.  The cast
truncates toward zero and wraps modulo 2^16; the source applies no
clipping. -/
def int16OfFloat (v : ℚ) : Int := wrap16 (ratTrunc (v * 32767))

/-- Modelled from the spec wording only (for comparison with
`int16OfFloat`): the conversion the spec describes, with the value
range-clamped (saturated) to the int16 domain instead of wrapped. -/
def int16OfFloatClamped (v : ℚ) : Int :=
  max (-32768) (min 32767 (ratTrunc (v * 32767)))

/-- The float input conversion of `app/resample.py`:
`audio.astype(np.float32) / 32768.0`. -/
def floatOfInt16 (s : Int) : ℚ := (s : ℚ) / 32768

/-- `resample_to_target_rate_int16` from `app/resample.py`.  The external
`soxr.resample` call is abstracted as the function argument `filt`
(mapping the float samples and the two rates to float samples); the
branches around it follow the source: equal rates return the input
untouched, an empty input returns an empty array, otherwise the input is
converted to float, filtered, and converted back to int16. -/
def resample_to_target_rate_int16 (filt : List ℚ → Int → Int → List ℚ)
    (audio : List Int) (source_rate target_rate : Int) : List Int :=
  if source_rate = target_rate then audio
  else if audio.length = 0 then []
  else (filt (audio.map floatOfInt16) source_rate target_rate).map int16OfFloat

/-- `validate_resample_ratio` from `app/resample.py`: false for a
non-positive rate, otherwise true exactly when
`max(source_rate, target_rate) / min(source_rate, target_rate) ≤ 8`. -/
def validate_resample_ratio (source_rate target_rate : Int) : Bool :=
  if source_rate ≤ 0 ∨ target_rate ≤ 0 then false
  else if ((max source_rate target_rate : Int) : ℚ) / ((min source_rate target_rate : Int) : ℚ) ≤ 8 then true
  else false

/-! ### app/audio_devices.py -/

/-- One sample pair of `downmix_stereo_to_mono_int16`: both channels are
widened to int32 (`astype(np.int32)`), added, floor-divided by two
(numpy `//`), and narrowed back to int16 (`astype(np.int16)`).  The
int32 addition wraps modulo 2^32 and the final narrowing wraps modulo
2^16, exactly like the numpy operations on the corresponding dtypes. -/
def downmix_pair (l r : Int) : Int := wrap16 (Int.fdiv (wrap32 (l + r)) 2)

/-- `downmix_stereo_to_mono_int16` from `app/audio_devices.py` on a
stereo frame, one `(left, right)` pair per sample position. -/
def downmix_stereo_to_mono_int16 (frames : List (Int × Int)) : List Int :=
  frames.map fun p => downmix_pair p.1 p.2

/-! ### app/ptt.py -/

/-- Direction of a raw keyboard edge event (`event.event_type`). -/
inductive KeyDir
  | down
  | up
  deriving DecidableEq

/-- A callback fired by the PTT handler. -/
inductive PTTCallback
  | onPressed
  | onReleased
  deriving DecidableEq

/-- The mutable state of `PTTHandler`: the `_pressed` flag and
`_last_event_time` (milliseconds; initialised to 0 in `__init__`). -/
structure PTTState where
  pressed : Bool
  lastEventTime : Int
  deriving DecidableEq

/-- `PTTHandler.__init__` state: `_pressed = False`, `_last_event_time = 0`. -/
def initPTTState : PTTState := { pressed := false, lastEventTime := 0 }

/-- `PTTHandler._handle_key_event` on one raw event at time `t`
(milliseconds): any event closer than `debounceMs` to the last event
that passed the debounce check is dropped; otherwise
`_last_event_time` is updated, and the `_pressed` flag gates which
callback (if any) fires. -/
def handleKeyEvent (debounceMs : Int) (s : PTTState) (t : Int) (dir : KeyDir) :
    PTTState × List PTTCallback :=
  if t - s.lastEventTime < debounceMs then (s, [])
  else
    let s1 : PTTState := { s with lastEventTime := t }
    match dir with
    | KeyDir.down =>
        if s1.pressed then (s1, [])
        else ({ s1 with pressed := true }, [PTTCallback.onPressed])
    | KeyDir.up =>
        if s1.pressed then ({ s1 with pressed := false }, [PTTCallback.onReleased])
        else (s1, [])

/-- Feeding a list of timed raw events through
`PTTHandler._handle_key_event`, collecting the fired callbacks in
order. -/
def runKeyEvents (debounceMs : Int) (s : PTTState) :
    List (Int × KeyDir) → PTTState × List PTTCallback
  | [] => (s, [])
  | (t, dir) :: rest =>
      ((runKeyEvents debounceMs (handleKeyEvent debounceMs s t dir).1 rest).1,
       (handleKeyEvent debounceMs s t dir).2 ++
         (runKeyEvents debounceMs (handleKeyEvent debounceMs s t dir).1 rest).2)

/-- `altFrom b cbs` holds when the callback list `cbs` strictly
alternates between `onPressed` and `onReleased`, starting with
`onPressed` when `b = false` (handler not pressed) and with
`onReleased` when `b = true`. -/
def altFrom : Bool → List PTTCallback → Bool
  | _, [] => true
  | false, PTTCallback.onPressed :: r => altFrom true r
  | true, PTTCallback.onReleased :: r => altFrom false r
  | _, _ => false

/-! ### app/pipeline.py — audio buffer

`PTTPipeline.audio_buffer_48k` is `queue.Queue(maxsize=100)`;
`_on_audio_captured` pushes with `put_nowait` and on `queue.Full` drops
the incoming frame (logging a warning).  Frames are identified here by
their 0-based push-attempt index. -/

/-- The bounded frame queue: the retained frames in FIFO order and the
count of dropped frames. -/
structure AudioBuffer where
  frames : List Nat
  dropped : Nat
  deriving DecidableEq

/-- `queue.Queue(maxsize=100)` from `PTTPipeline.__init__`. -/
def bufferCapacity : Nat := 100

/-- A fresh, empty `audio_buffer_48k`. -/
def emptyBuffer : AudioBuffer := { frames := [], dropped := 0 }

/-- One push from `PTTPipeline._on_audio_captured`: `put_nowait` appends
when the queue holds fewer than `bufferCapacity` frames; on a full queue
`queue.Full` is caught, the incoming frame is dropped and the buffered
frames stay untouched.  The call returns either way — it never blocks. -/
def put_nowait (b : AudioBuffer) (x : Nat) : AudioBuffer :=
  if b.frames.length < bufferCapacity then { b with frames := b.frames ++ [x] }
  else { b with dropped := b.dropped + 1 }

/-- Pushing frames 0, 1, …, n-1 (their push-attempt indices) into a
fresh buffer. -/
def pushSeq (n : Nat) : AudioBuffer := (List.range n).foldl put_nowait emptyBuffer

/-! ### app/pipeline.py and app/voicemeeter_ctrl.py — session side effects -/

/-- An observable side effect of the orchestrator's PTT session
handlers. -/
inductive PipelineEffect
  | clearBuffer
  | startCapture
  | startSTT
  | stopCapture
  | sleepMs (ms : Nat)
  | stopSTT
  | muteStrip (index : Nat) (mute : Bool)
  deriving DecidableEq

/-- Effect trace of `VoicemeeterController.set_ptt_mode` (connected
case): pressed mutes the mic strip and unmutes the TTS strip; released
unmutes the mic strip and mutes the TTS strip. -/
def set_ptt_mode (pressed : Bool) (strip_mic strip_tts : Nat) : List PipelineEffect :=
  if pressed then
    [PipelineEffect.muteStrip strip_mic true, PipelineEffect.muteStrip strip_tts false]
  else
    [PipelineEffect.muteStrip strip_mic false, PipelineEffect.muteStrip strip_tts true]

/-- Effect trace of `PTTPipeline._on_ptt_pressed`: switch the mixer
strips, clear the audio buffer, start capture, start STT. -/
def on_ptt_pressed (strip_mic strip_tts : Nat) : List PipelineEffect :=
  set_ptt_mode true strip_mic strip_tts ++
    [PipelineEffect.clearBuffer, PipelineEffect.startCapture, PipelineEffect.startSTT]

/-- Effect trace of `PTTPipeline._on_ptt_released`: stop capture,
`time.sleep(0.3)`, stop STT — and nothing else; in particular no call
into `VoicemeeterController`. -/
def on_ptt_released : List PipelineEffect :=
  [PipelineEffect.stopCapture, PipelineEffect.sleepMs 300, PipelineEffect.stopSTT]

/-! ### app/pipeline.py — setup -/

/-- Which external dependencies would succeed if attempted during
`PTTPipeline.setup`: the Voicemeeter connection, the two Azure client
constructors, and the two configured device-name lookups. -/
structure SetupEnv where
  mixerOk : Bool
  sttOk : Bool
  ttsOk : Bool
  micDeviceFound : Bool
  ttsDeviceFound : Bool
  deriving DecidableEq

/-- The mandatory dependency whose failure `setup` logs before
returning `False`. -/
inductive SetupFailure
  | mixerConnect
  | sttInit
  | ttsInit
  deriving DecidableEq

/-- Outcome of `PTTPipeline.setup`: the returned boolean, which failure
(if any) was logged, and which resources are established when it
returns. -/
structure SetupResult where
  ok : Bool
  failed : Option SetupFailure
  mixerConnected : Bool
  sttCreated : Bool
  ttsCreated : Bool
  deriving DecidableEq

/-- A setup environment where the mixer connects but the Azure STT
constructor fails. -/
def sttFailEnv : SetupEnv :=
  { mixerOk := true
    sttOk := false
    ttsOk := true
    micDeviceFound := true
    ttsDeviceFound := true }

/-- A setup environment where every client succeeds but the configured
mic device name matches no device. -/
def micMissingEnv : SetupEnv :=
  { mixerOk := true
    sttOk := true
    ttsOk := true
    micDeviceFound := false
    ttsDeviceFound := true }

/-- `PTTPipeline.setup`, step by step from the source: connect to
Voicemeeter (return `False` on failure); construct the STT client
(return `False` on failure, leaving the mixer connection as it was);
construct the TTS client (likewise); resolve the configured device
names, where a miss only logs a warning and falls back to the default
device; then return `True`. -/
def pipelineSetup (env : SetupEnv) : SetupResult :=
  if ¬ env.mixerOk then
    { ok := false, failed := some SetupFailure.mixerConnect,
      mixerConnected := false, sttCreated := false, ttsCreated := false }
  else if ¬ env.sttOk then
    { ok := false, failed := some SetupFailure.sttInit,
      mixerConnected := true, sttCreated := false, ttsCreated := false }
  else if ¬ env.ttsOk then
    { ok := false, failed := some SetupFailure.ttsInit,
      mixerConnected := true, sttCreated := true, ttsCreated := false }
  else
    { ok := true, failed := none,
      mixerConnected := true, sttCreated := true, ttsCreated := true }

/-! ### app/pipeline.py — stop -/

/-- A resource released by `PTTPipeline.stop`. -/
inductive Resource
  | pttHandler
  | inputStream
  | outputStream
  | sttSession
  | mixer
  deriving DecidableEq

/-- The resource state `PTTPipeline.stop` acts on. -/
structure PipelineRes where
  running : Bool
  inputOpen : Bool
  outputOpen : Bool
  sttOpen : Bool
  mixerConnected : Bool
  deriving DecidableEq

/-- Which of the teardown calls that can propagate an exception
(`AudioInputStream.stop`, `AudioOutputStream.stop`, `AzureSTT.stop` —
none of them wraps its body in a try/except) would raise if reached.
`PTTHandler.stop` and `VoicemeeterController.disconnect` catch their own
exceptions and never propagate. -/
structure TeardownFaults where
  inputFails : Bool
  outputFails : Bool
  sttFails : Bool
  deriving DecidableEq

/-- A running pipeline with every resource open. -/
def allOpenRes : PipelineRes :=
  { running := true
    inputOpen := true
    outputOpen := true
    sttOpen := true
    mixerConnected := true }

/-- Every teardown call succeeds. -/
def noFaults : TeardownFaults :=
  { inputFails := false
    outputFails := false
    sttFails := false }

/-- Only `AudioInputStream.stop` raises. -/
def inputFaultOnly : TeardownFaults :=
  { inputFails := true
    outputFails := false
    sttFails := false }

/-- `PTTPipeline.stop`, step by step from the source: return at once if
not running; clear `_running`; stop the PTT handler (its exceptions are
swallowed inside `PTTHandler.stop`); stop the input stream, the output
stream and STT in that order, where a raised exception propagates out of
`stop` immediately and the remaining calls are never reached; finally
disconnect Voicemeeter (which swallows its own errors).  Returns the new
state, the list of resources whose release was attempted, and whether
`stop` returned normally. -/
def pipelineStop (f : TeardownFaults) (s : PipelineRes) :
    PipelineRes × List Resource × Bool :=
  if ¬ s.running then (s, [], true)
  else
    let s0 : PipelineRes := { s with running := false }
    if f.inputFails then (s0, [Resource.pttHandler, Resource.inputStream], false)
    else
      let s1 : PipelineRes := { s0 with inputOpen := false }
      if f.outputFails then
        (s1, [Resource.pttHandler, Resource.inputStream, Resource.outputStream], false)
      else
        let s2 : PipelineRes := { s1 with outputOpen := false }
        if f.sttFails then
          (s2, [Resource.pttHandler, Resource.inputStream, Resource.outputStream,
                Resource.sttSession], false)
        else
          let s3 : PipelineRes := { s2 with sttOpen := false }
          ({ s3 with mixerConnected := false },
           [Resource.pttHandler, Resource.inputStream, Resource.outputStream,
            Resource.sttSession, Resource.mixer], true)

/-! ## Theorems -/

/-- The int16 wrap is the identity on values already in the int16 range. -/
lemma wrap16_eq_of_mem (n : Int) (h1 : -32768 ≤ n) (h2 : n ≤ 32767) :
    wrap16 n = n := by
  unfold wrap16
  omega

/-- The int16 wrap always lands in the int16 range. -/
lemma wrap16_mem (n : Int) : -32768 ≤ wrap16 n ∧ wrap16 n ≤ 32767 := by
  unfold wrap16
  omega

/-- The int32 wrap is the identity on values already in the int32 range. -/
lemma wrap32_eq_of_mem (n : Int) (h1 : -2147483648 ≤ n) (h2 : n ≤ 2147483647) :
    wrap32 n = n := by
  unfold wrap32
  omega

/-- Truncation toward zero of a rational in [-32767, 32767] lies in
[-32767, 32767]. -/
lemma ratTrunc_mem (q : ℚ) (h1 : -32767 ≤ q) (h2 : q ≤ 32767) :
    -32767 ≤ ratTrunc q ∧ ratTrunc q ≤ 32767 := by
  unfold ratTrunc
  split
  · rename_i h0
    constructor
    · have : (0 : Int) ≤ ⌊q⌋ := Int.le_floor.mpr (by exact_mod_cast h0)
      omega
    · have : ⌊q⌋ ≤ ⌊(32767 : ℚ)⌋ := Int.floor_le_floor h2
      simpa using this
  · rename_i h0
    push_neg at h0
    constructor
    · have : ⌈(-32767 : ℚ)⌉ ≤ ⌈q⌉ := Int.ceil_le_ceil h1
      simpa using this
    · have : ⌈q⌉ ≤ ⌈(0 : ℚ)⌉ := Int.ceil_le_ceil h0.le
      simp only [Int.ceil_zero] at this
      omega

/-- One sample pair of the stereo downmix: within the int16 input range
the int32 widening is exact (no wrap), the floor division halves the
true sum, and the result is back in the int16 range so the final
narrowing is exact as well. -/
lemma downmix_pair_spec (l r : Int) (hl1 : -32768 ≤ l) (hl2 : l ≤ 32767)
    (hr1 : -32768 ≤ r) (hr2 : r ≤ 32767) :
    downmix_pair l r = Int.fdiv (l + r) 2 ∧
    -32768 ≤ downmix_pair l r ∧ downmix_pair l r ≤ 32767 := by
  unfold downmix_pair
  rw [wrap32_eq_of_mem _ (by omega) (by omega)]
  rw [Int.fdiv_eq_ediv _ (by norm_num)]
  rw [wrap16_eq_of_mem _ (by omega) (by omega)]
  omega

/-- C9: the stereo-to-mono downmix computes each mono sample as
`(left + right) / 2` (floor division) in a wider integer type with no
overflow at either the 32-bit addition or the final 16-bit narrowing,
so every output sample is in the int16 range; at every sample position
`left = 1000, right = -1000` yields 0 and `left = right = 32767` yields
32767. -/
theorem downmix_stereo_spec (frames : List (Int × Int))
    (h : ∀ p ∈ frames, -32768 ≤ p.1 ∧ p.1 ≤ 32767 ∧ -32768 ≤ p.2 ∧ p.2 ≤ 32767) :
    downmix_stereo_to_mono_int16 frames
        = frames.map (fun p => Int.fdiv (p.1 + p.2) 2) ∧
    (∀ m ∈ downmix_stereo_to_mono_int16 frames, -32768 ≤ m ∧ m ≤ 32767) ∧
    downmix_pair 1000 (-1000) = 0 ∧ downmix_pair 32767 32767 = 32767 := by
  refine ⟨?_, ?_, by decide, by decide⟩
  · apply List.map_congr_left
    intro p hp
    obtain ⟨h1, h2, h3, h4⟩ := h p hp
    exact (downmix_pair_spec p.1 p.2 h1 h2 h3 h4).1
  · intro m hm
    obtain ⟨p, hp, rfl⟩ := List.mem_map.mp hm
    obtain ⟨h1, h2, h3, h4⟩ := h p hp
    exact (downmix_pair_spec p.1 p.2 h1 h2 h3 h4).2

/-- Witness for `downmix_stereo_spec` at the concrete two-sample frame
[(1000, -1000), (32767, 32767)]. -/
theorem downmix_stereo_spec_witness :
    (∀ p ∈ [((1000 : Int), (-1000 : Int)), (32767, 32767)],
        -32768 ≤ p.1 ∧ p.1 ≤ 32767 ∧ -32768 ≤ p.2 ∧ p.2 ≤ 32767) ∧
    downmix_stereo_to_mono_int16 [(1000, -1000), (32767, 32767)]
        = [((1000 : Int), (-1000 : Int)), (32767, 32767)].map
            (fun p => Int.fdiv (p.1 + p.2) 2) :=
  ⟨by decide, (downmix_stereo_spec _ (by decide)).1⟩

/-- C6 counterexample: the int16 output conversion of the resampler
does not clamp — at the out-of-range intermediate value 3/2 (a filter
overshoot above full scale) the source's cast wraps around to the
negative value -16386, while the clamping conversion the claim
describes yields 32767. -/
theorem int16_cast_wraps_counterexample :
    int16OfFloat (3/2) = -16386 ∧ int16OfFloatClamped (3/2) = 32767 ∧
    int16OfFloat (3/2) ≠ int16OfFloatClamped (3/2) ∧ int16OfFloat (3/2) < 0 := by
  have h : ratTrunc ((3/2 : ℚ) * 32767) = 49150 := by
    unfold ratTrunc
    rw [if_pos (by norm_num)]
    norm_num
  unfold int16OfFloat int16OfFloatClamped wrap16
  rw [h]
  norm_num

/-- C6 amended: every output sample of the int16 conversion lies in the
signed 16-bit domain, but through the modular wraparound of the cast,
not through clamping; for intermediate values in [-1, 1] (no filter
overshoot) the cast is exact and agrees with the clamping conversion. -/
theorem int16_cast_range_no_clamp (v : ℚ) :
    (-32768 ≤ int16OfFloat v ∧ int16OfFloat v ≤ 32767) ∧
    (-1 ≤ v → v ≤ 1 → int16OfFloat v = int16OfFloatClamped v) := by
  constructor
  · exact wrap16_mem _
  · intro h1 h2
    have hm := ratTrunc_mem (v * 32767) (by nlinarith) (by nlinarith)
    unfold int16OfFloat int16OfFloatClamped
    rw [wrap16_eq_of_mem _ (by omega) (by omega)]
    rw [min_eq_right hm.2, max_eq_right (by omega)]

/-- Witness for `int16_cast_range_no_clamp` at the concrete in-range
intermediate value 1. -/
theorem int16_cast_range_no_clamp_witness :
    ((-1 : ℚ) ≤ 1 ∧ (1 : ℚ) ≤ 1) ∧
    (-32768 ≤ int16OfFloat 1 ∧ int16OfFloat 1 ≤ 32767) ∧
    int16OfFloat 1 = int16OfFloatClamped 1 :=
  ⟨⟨by decide, by decide⟩, (int16_cast_range_no_clamp 1).1,
   (int16_cast_range_no_clamp 1).2 (by decide) (by decide)⟩

/-- C7: identity resampling (equal source and target rate) returns the
input unchanged for every input frame and every filter, and resampling
an empty frame returns an empty frame for every rate pair. -/
theorem resample_identity_and_empty
    (filt : List ℚ → Int → Int → List ℚ) (audio : List Int) (sr tr : Int) :
    resample_to_target_rate_int16 filt audio sr sr = audio ∧
    resample_to_target_rate_int16 filt [] sr tr = [] := by
  constructor
  · simp [resample_to_target_rate_int16]
  · by_cases h : sr = tr <;> simp [resample_to_target_rate_int16, h]

/-- C8: the ratio-validity guard returns false exactly when either rate
is non-positive or the ratio `max/min` exceeds 8, and true otherwise;
in particular it accepts (48000, 16000) and rejects (48000, 400000). -/
theorem validate_resample_ratio_spec (sr tr : Int) :
    (validate_resample_ratio sr tr = false ↔
      sr ≤ 0 ∨ tr ≤ 0 ∨ 8 < ((max sr tr : Int) : ℚ) / ((min sr tr : Int) : ℚ)) ∧
    validate_resample_ratio 48000 16000 = true ∧
    validate_resample_ratio 48000 400000 = false := by
  refine ⟨?_, ?_, ?_⟩
  · unfold validate_resample_ratio
    split
    · simp only [true_iff]
      tauto
    · rename_i hpos
      push_neg at hpos
      split
      · rename_i hle
        simp only [Bool.true_eq_false, false_iff]
        push_neg
        exact ⟨hpos.1, hpos.2, hle⟩
      · rename_i hle
        simp only [true_iff]
        exact Or.inr (Or.inr (not_le.mp hle))
  · unfold validate_resample_ratio
    norm_num
  · unfold validate_resample_ratio
    norm_num

/-- Folding pushes over the buffer preserves the capacity bound. -/
lemma buffer_foldl_length_le (xs : List Nat) :
    ∀ b : AudioBuffer, b.frames.length ≤ bufferCapacity →
      (xs.foldl put_nowait b).frames.length ≤ bufferCapacity := by
  induction xs with
  | nil =>
      intro b hb
      simpa using hb
  | cons x xs ih =>
      intro b hb
      simp only [List.foldl_cons]
      apply ih
      unfold put_nowait
      split
      · rename_i hlt
        simp only [List.length_append, List.length_cons, List.length_nil]
        omega
      · simpa using hb

set_option maxRecDepth 8000 in
/-- C5 counterexample: drop-newest does not bound the age of the oldest
retained frame.  After 102 pushes into a fresh buffer (no pops), the
oldest retained frame is the one from push attempt 0, which happened
101 pushes ago — more than the 100-frame capacity. -/
theorem buffer_staleness_counterexample :
    (pushSeq 102).frames.head? = some 0 ∧ 102 - (0 + 1) > bufferCapacity := by
  decide

/-- C5 amended: for every sequence of pushes into a fresh buffer the
buffer never exceeds its 100-frame capacity, and a push onto a full
buffer returns without blocking, drops the incoming (newest) frame —
leaving every already-buffered frame in place — and counts the drop;
the age of the oldest retained frame, however, is unbounded. -/
theorem buffer_bounded_drop_newest (xs : List Nat) (b : AudioBuffer) (x : Nat) :
    (xs.foldl put_nowait emptyBuffer).frames.length ≤ bufferCapacity ∧
    (b.frames.length = bufferCapacity →
      (put_nowait b x).frames = b.frames ∧
      (put_nowait b x).dropped = b.dropped + 1) := by
  constructor
  · exact buffer_foldl_length_le xs emptyBuffer (by simp [emptyBuffer])
  · intro hfull
    unfold put_nowait
    rw [if_neg (by omega)]
    exact ⟨rfl, rfl⟩

set_option maxRecDepth 8000 in
/-- Witness for `buffer_bounded_drop_newest`: the buffer after 100
pushes is full, and the 101st push drops the incoming frame while
keeping all buffered frames. -/
theorem buffer_bounded_drop_newest_witness :
    (pushSeq 100).frames.length = bufferCapacity ∧
    (put_nowait (pushSeq 100) 100).frames = (pushSeq 100).frames ∧
    (put_nowait (pushSeq 100) 100).dropped = (pushSeq 100).dropped + 1 :=
  ⟨by decide, (buffer_bounded_drop_newest [] (pushSeq 100) 100).2 (by decide)⟩

/-- C4 counterexample: debounce in `_handle_key_event` is not
per-direction.  With the default 50 ms window, a key-down at t = 1000 ms
followed by a key-up at t = 1030 ms (a legitimate rapid press/release,
opposite directions) fires only `on_pressed`: the release is suppressed
and the handler stays pressed. -/
theorem debounce_suppresses_release_counterexample :
    (runKeyEvents 50 initPTTState [(1000, KeyDir.down), (1030, KeyDir.up)]).2
        = [PTTCallback.onPressed] ∧
    (runKeyEvents 50 initPTTState [(1000, KeyDir.down), (1030, KeyDir.up)]).1.pressed
        = true := by
  decide

/-- C4 amended: debounce is direction-agnostic — a raw edge event is
ignored exactly when it falls within the debounce window of the last
event that passed the debounce check, whatever the direction of either
event (so a rapid press then release inside the window loses the
release); two key-down edges separated by less than the window still
produce exactly one `on_pressed` callback. -/
theorem debounce_direction_agnostic (d t t1 t2 : Int) (s : PTTState) (dir : KeyDir)
    (hwin : t - s.lastEventTime < d) :
    handleKeyEvent d s t dir = (s, []) ∧
    (s.pressed = false → d ≤ t1 - s.lastEventTime → t2 - t1 < d →
      (runKeyEvents d s [(t1, KeyDir.down), (t2, KeyDir.down)]).2
          = [PTTCallback.onPressed]) := by
  constructor
  · unfold handleKeyEvent
    rw [if_pos hwin]
  · intro hp h1 h2
    have e1 : handleKeyEvent d s t1 KeyDir.down
        = ({ pressed := true, lastEventTime := t1 }, [PTTCallback.onPressed]) := by
      unfold handleKeyEvent
      rw [if_neg (by omega)]
      simp [hp]
    have e2 : handleKeyEvent d { pressed := true, lastEventTime := t1 } t2 KeyDir.down
        = ({ pressed := true, lastEventTime := t1 }, []) := by
      unfold handleKeyEvent
      rw [if_pos (by simpa using h2)]
    simp [runKeyEvents, e1, e2]

/-- Witness for `debounce_direction_agnostic` with the default 50 ms
window, the initial handler state, and concrete event times. -/
theorem debounce_direction_agnostic_witness :
    ((0 : Int) - initPTTState.lastEventTime < 50) ∧
    handleKeyEvent 50 initPTTState 0 KeyDir.up = (initPTTState, []) ∧
    (runKeyEvents 50 initPTTState [(1000, KeyDir.down), (1030, KeyDir.down)]).2
        = [PTTCallback.onPressed] :=
  ⟨by decide,
   (debounce_direction_agnostic 50 0 1000 1030 initPTTState KeyDir.up (by decide)).1,
   (debounce_direction_agnostic 50 0 1000 1030 initPTTState KeyDir.up (by decide)).2
     (by decide) (by decide) (by decide)⟩

/-- One call to `_handle_key_event` either fires nothing and keeps the
`_pressed` flag, or fires `on_pressed` flipping the flag from false to
true, or fires `on_released` flipping it from true to false. -/
lemma handleKeyEvent_cases (d : Int) (s : PTTState) (t : Int) (dir : KeyDir) :
    ((handleKeyEvent d s t dir).2 = [] ∧
      (handleKeyEvent d s t dir).1.pressed = s.pressed) ∨
    (s.pressed = false ∧ (handleKeyEvent d s t dir).2 = [PTTCallback.onPressed] ∧
      (handleKeyEvent d s t dir).1.pressed = true) ∨
    (s.pressed = true ∧ (handleKeyEvent d s t dir).2 = [PTTCallback.onReleased] ∧
      (handleKeyEvent d s t dir).1.pressed = false) := by
  unfold handleKeyEvent
  split
  · exact Or.inl ⟨rfl, rfl⟩
  · cases dir <;> by_cases hp : s.pressed = true <;> simp [hp]

/-- The callbacks fired from any handler state alternate, starting
against that state's `_pressed` flag. -/
lemma altFrom_runKeyEvents (d : Int) :
    ∀ (evts : List (Int × KeyDir)) (s : PTTState),
      altFrom s.pressed (runKeyEvents d s evts).2 = true := by
  intro evts
  induction evts with
  | nil =>
      intro s
      cases s.pressed <;> rfl
  | cons e rest ih =>
      intro s
      obtain ⟨t, dir⟩ := e
      have ihs := ih (handleKeyEvent d s t dir).1
      simp only [runKeyEvents]
      rcases handleKeyEvent_cases d s t dir with ⟨h1, h2⟩ | ⟨h0, h1, h2⟩ | ⟨h0, h1, h2⟩
      · rw [h1, List.nil_append, ← h2]
        exact ihs
      · rw [h1, h0, List.singleton_append]
        show altFrom true (runKeyEvents d (handleKeyEvent d s t dir).1 rest).2 = true
        rw [h2] at ihs
        exact ihs
      · rw [h1, h0, List.singleton_append]
        show altFrom false (runKeyEvents d (handleKeyEvent d s t dir).1 rest).2 = true
        rw [h2] at ihs
        exact ihs

/-- C10: for every raw event sequence fed to the PTT handler, the fired
callbacks strictly alternate starting with `on_pressed` — `on_pressed`
fires only from the unpressed state, `on_released` only from the
pressed state, so repeated key-downs (however far apart) fire at most
one `on_pressed` before the next `on_released`, and the first callback
ever fired is `on_pressed`. -/
theorem ptt_callbacks_alternate (d : Int) (evts : List (Int × KeyDir)) :
    altFrom false (runKeyEvents d initPTTState evts).2 = true :=
  altFrom_runKeyEvents d evts initPTTState

/-- C1: the effect trace of `_on_ptt_released` stops capture, sleeps the
fixed 300 ms tail, stops STT — and contains no mixer-strip call at all:
the routing revert that `set_ptt_mode False` would perform (unmute the
mic strip, mute the TTS strip) never happens on session end, for any
strip indices. -/
theorem on_ptt_released_no_routing_revert :
    on_ptt_released
        = [PipelineEffect.stopCapture, PipelineEffect.sleepMs 300,
           PipelineEffect.stopSTT] ∧
    (∀ i b, PipelineEffect.muteStrip i b ∉ on_ptt_released) ∧
    (∀ m t, set_ptt_mode false m t
        = [PipelineEffect.muteStrip m false, PipelineEffect.muteStrip t true]) := by
  refine ⟨rfl, ?_, fun m t => rfl⟩
  intro i b
  simp [on_ptt_released]

/-- C2 counterexample: releases in `PTTPipeline.stop` are not isolated.
Starting from a running pipeline with every resource open, if
`input_stream.stop()` raises, then the output stream, the STT session
and the mixer connection are never attempted: stop propagates the
exception with the mixer still connected and STT still open — and since
`_running` was already cleared, a second call releases nothing. -/
theorem pipelineStop_isolation_counterexample :
    Resource.mixer ∉ (pipelineStop inputFaultOnly allOpenRes).2.1 ∧
    (pipelineStop inputFaultOnly allOpenRes).1.mixerConnected = true ∧
    (pipelineStop inputFaultOnly allOpenRes).1.sttOpen = true := by
  decide

/-- After any call to `stop` (normal or aborted by an exception) the
pipeline is no longer running. -/
lemma pipelineStop_not_running (f : TeardownFaults) (s : PipelineRes) :
    (pipelineStop f s).1.running = false := by
  unfold pipelineStop
  split
  · rename_i h
    simpa using h
  · split_ifs <;> rfl

/-- `stop` on a pipeline that is not running returns immediately and
changes nothing. -/
lemma pipelineStop_of_not_running (f : TeardownFaults) (s : PipelineRes)
    (h : s.running = false) :
    pipelineStop f s = (s, [], true) := by
  unfold pipelineStop
  rw [if_pos (by simp [h])]

/-- C2 amended: `stop` is idempotent — a second call after any first
call (even one aborted by a teardown exception) changes nothing; when no
teardown raises, every resource (input stream, output stream, STT
session, mixer connection) is released in order; but releases are not
isolated: if the input-stream teardown raises, only the PTT handler and
the input stream were attempted and the exception escapes. -/
theorem pipelineStop_idempotent_ordered (f g h : TeardownFaults) (s : PipelineRes) :
    pipelineStop f (pipelineStop g s).1 = ((pipelineStop g s).1, [], true) ∧
    (s.running = true → f.inputFails = false → f.outputFails = false →
      f.sttFails = false →
      (pipelineStop f s).1.inputOpen = false ∧
      (pipelineStop f s).1.outputOpen = false ∧
      (pipelineStop f s).1.sttOpen = false ∧
      (pipelineStop f s).1.mixerConnected = false ∧
      (pipelineStop f s).2.1
          = [Resource.pttHandler, Resource.inputStream, Resource.outputStream,
             Resource.sttSession, Resource.mixer] ∧
      (pipelineStop f s).2.2 = true) ∧
    (s.running = true → h.inputFails = true →
      (pipelineStop h s).2.1 = [Resource.pttHandler, Resource.inputStream] ∧
      (pipelineStop h s).2.2 = false) := by
  refine ⟨pipelineStop_of_not_running f _ (pipelineStop_not_running g s), ?_, ?_⟩
  · intro hr h1 h2 h3
    simp [pipelineStop, hr, h1, h2, h3]
  · intro hr h1
    simp [pipelineStop, hr, h1]

/-- Witness for `pipelineStop_idempotent_ordered` at a running pipeline
with all resources open, a fault-free teardown `f`, and a teardown `h`
whose input-stream stop raises. -/
theorem pipelineStop_idempotent_ordered_witness :
    allOpenRes.running = true ∧
    noFaults.inputFails = false ∧ noFaults.outputFails = false ∧
    noFaults.sttFails = false ∧ inputFaultOnly.inputFails = true ∧
    (pipelineStop noFaults allOpenRes).1.mixerConnected = false ∧
    (pipelineStop inputFaultOnly allOpenRes).2.1
        = [Resource.pttHandler, Resource.inputStream] :=
  ⟨rfl, rfl, rfl, rfl, rfl,
   ((pipelineStop_idempotent_ordered noFaults noFaults inputFaultOnly allOpenRes).2.1
      rfl rfl rfl rfl).2.2.2.1,
   ((pipelineStop_idempotent_ordered noFaults noFaults inputFaultOnly allOpenRes).2.2
      rfl rfl).1⟩

/-- C3 counterexample: `setup` does not clean up on its failing paths,
and a failed device-name resolution does not fail `setup`.  When the
mixer connects but the STT client constructor fails, `setup` returns
failure with the mixer connection still open; and when every client is
fine but the configured mic device is not found, `setup` still
succeeds. -/
theorem pipelineSetup_partial_resource_counterexample :
    (pipelineSetup sttFailEnv).ok = false ∧
    (pipelineSetup sttFailEnv).mixerConnected = true ∧
    (pipelineSetup micMissingEnv).ok = true := by
  decide

/-- C3 amended: `setup` succeeds exactly when the mixer connection and
the two Azure clients can be established (device resolution never fails
it — a miss falls back to the default device); each failing path
reports the specific dependency that failed; but on the STT- and
TTS-failing paths the already-established mixer connection is left
open. -/
theorem pipelineSetup_characterization (env : SetupEnv) :
    ((pipelineSetup env).ok = true ↔
      env.mixerOk = true ∧ env.sttOk = true ∧ env.ttsOk = true) ∧
    (env.mixerOk = false →
      (pipelineSetup env).failed = some SetupFailure.mixerConnect ∧
      (pipelineSetup env).mixerConnected = false) ∧
    (env.mixerOk = true → env.sttOk = false →
      (pipelineSetup env).failed = some SetupFailure.sttInit ∧
      (pipelineSetup env).mixerConnected = true) ∧
    (env.mixerOk = true → env.sttOk = true → env.ttsOk = false →
      (pipelineSetup env).failed = some SetupFailure.ttsInit ∧
      (pipelineSetup env).mixerConnected = true) := by
  obtain ⟨m, st, tt, md, td⟩ := env
  cases m <;> cases st <;> cases tt <;> simp [pipelineSetup]

/-- Witness for `pipelineSetup_characterization` at the environment
where only the STT client constructor fails. -/
theorem pipelineSetup_characterization_witness :
    sttFailEnv.mixerOk = true ∧ sttFailEnv.sttOk = false ∧
    (pipelineSetup sttFailEnv).failed = some SetupFailure.sttInit ∧
    (pipelineSetup sttFailEnv).mixerConnected = true :=
  ⟨rfl, rfl, (pipelineSetup_characterization sttFailEnv).2.2.1 rfl rfl⟩

end RVLT
